import Mathlib

/-!
# Kubernetes cluster resource of the DigitalOcean Terraform provider

A shallow embedding of `digitalocean/resource_digitalocean_kubernetes_cluster.go`
and theorems about it.

Conventions of the embedding:

* a Go `string` is a Lean `String` (the tags, names and tokens handled here are
  text); a Go `[]byte` is a `List Nat`, each element read modulo `2^8`;
* a Go `error` is the `String` of its message, `fmt.Errorf("...: %s", err)` is
  string concatenation;
* a pointer that may be `nil` is an `Option`;
* the remote API is an explicit environment, and every remote call made by an
  operation is recorded, in order, in the result of the operation.
-/

namespace DigitalOcean

/-! ## Tag filtering -/

/-- Go `strings.HasPrefix(s, prefix)`:
`len(s) >= len(prefix) && s[0:len(prefix)] == prefix`. -/
def HasPrefix (s pre : String) : Bool :=
  decide (pre.data.length ≤ s.data.length) && (s.data.take pre.data.length == pre.data)

/-- The condition of the `if` in the loop body of `filterTags`. -/
def keepTag (t : String) : Bool :=
  !HasPrefix t "k8s:" && !HasPrefix t "terraform:" && t != "k8s"

/-- The function `filterTags`: starts from an empty slice and appends, in input order, every
tag that passes the condition. -/
def filterTags (tags : List String) : List String :=
  tags.foldl (fun filteredTags t => if keepTag t then filteredTags ++ [t] else filteredTags) []

/-- The reserved tags in the words of the specification: a tag that starts with
`k8s:` or with `terraform:`, or that is the literal `k8s`. -/
def ReservedTag (t : String) : Prop :=
  (∃ rest : String, t = "k8s:" ++ rest) ∨ (∃ rest : String, t = "terraform:" ++ rest) ∨ t = "k8s"

/-! ## Bytes and base64 -/

/-- Go `[]byte(s)`: the UTF-8 bytes of a string. -/
def bytesOfString (s : String) : List Nat :=
  s.data.flatMap (fun c => (String.utf8EncodeChar c).map UInt8.toNat)

/-- Go `string(b)` for a byte slice holding ASCII text (PEM data): one character
per byte. It is the conversion of Go for bytes below 128 only; a slice with
other bytes is outside the model. -/
def stringOfBytes (b : List Nat) : String :=
  ⟨b.map (fun x => Char.ofNat (x % 256))⟩

/-- The alphabet of `base64.StdEncoding` (RFC 4648, section 4). -/
def encodeStd : String :=
  "ABCDEFGHIJKLMNOPQRSTUVWXYZabcdefghijklmnopqrstuvwxyz0123456789+/"

/-- The character of the standard alphabet for a 6-bit value. -/
def encodeChar (i : Nat) : Char :=
  encodeStd.data.getD i '='

/-- The body of `base64.Encoding.Encode` for the standard padded encoding:
three bytes make a 24-bit value written as four characters, a remainder of one
or two bytes is written as two or three characters and padded with `=`. -/
def base64Encode : List Nat → List Char
  | [] => []
  | [a] =>
    let val := (a % 256) * 65536
    [encodeChar (val / 262144 % 64), encodeChar (val / 4096 % 64), '=', '=']
  | [a, b] =>
    let val := (a % 256) * 65536 + (b % 256) * 256
    [encodeChar (val / 262144 % 64), encodeChar (val / 4096 % 64),
      encodeChar (val / 64 % 64), '=']
  | a :: b :: c :: rest =>
    let val := (a % 256) * 65536 + (b % 256) * 256 + c % 256
    encodeChar (val / 262144 % 64) :: encodeChar (val / 4096 % 64)
      :: encodeChar (val / 64 % 64) :: encodeChar (val % 64) :: base64Encode rest

/-- Go `base64.StdEncoding.EncodeToString`. -/
def EncodeToString (src : List Nat) : String :=
  ⟨base64Encode src⟩

/-! ## Credentials and the kubeconfig document -/

/-- An instant, in nanoseconds since January 1, year 1, 00:00:00 UTC, which is
the zero value of Go `time.Time`. -/
abbrev Time := Int

/-- The fields of `godo.KubernetesClusterCredentials` that the resource reads.
A `nil` byte slice is `none` where the code tests for `nil`; the CA
certificate is only ever encoded, which treats `nil` as empty. -/
structure KubernetesClusterCredentials where
  Server : String
  CertificateAuthorityData : List Nat
  ClientCertificateData : Option (List Nat)
  ClientKeyData : Option (List Nat)
  Token : String
  ExpiresAt : Time
  deriving DecidableEq, Repr

structure kubernetesConfigClusterData where
  CertificateAuthorityData : String
  Server : String
  deriving DecidableEq, Repr

structure kubernetesConfigCluster where
  Cluster : kubernetesConfigClusterData
  Name : String
  deriving DecidableEq, Repr

structure kubernetesConfigContextData where
  Cluster : String
  User : String
  deriving DecidableEq, Repr

structure kubernetesConfigContext where
  Context : kubernetesConfigContextData
  Name : String
  deriving DecidableEq, Repr

structure kubernetesConfigUserData where
  ClientKeyData : String
  ClientCertificateData : String
  Token : String
  deriving DecidableEq, Repr

structure kubernetesConfigUser where
  Name : String
  User : kubernetesConfigUserData
  deriving DecidableEq, Repr

structure kubernetesConfig where
  APIVersion : String
  Kind : String
  Clusters : List kubernetesConfigCluster
  Contexts : List kubernetesConfigContext
  CurrentContext : String
  Users : List kubernetesConfigUser
  deriving DecidableEq, Repr

/-- The `config` value of `renderKubeconfig` as it stands when it is handed to
`yaml.Marshal`: the struct literal, then the two conditional assignments to
`config.Users[0].User`. -/
def kubeconfigOf (name region : String) (creds : KubernetesClusterCredentials) :
    kubernetesConfig :=
  let clusterName := "do-" ++ region ++ "-" ++ name
  let userName := "do-" ++ region ++ "-" ++ name ++ "-admin"
  let user0 : kubernetesConfigUserData :=
    { ClientKeyData := "", ClientCertificateData := "", Token := creds.Token }
  let user1 : kubernetesConfigUserData :=
    match creds.ClientKeyData with
    | some key => { user0 with ClientKeyData := EncodeToString key }
    | none => user0
  let user2 : kubernetesConfigUserData :=
    match creds.ClientCertificateData with
    | some cert => { user1 with ClientCertificateData := EncodeToString cert }
    | none => user1
  { APIVersion := "v1"
    Kind := "Config"
    Clusters := [{
      Name := clusterName
      Cluster := {
        CertificateAuthorityData := EncodeToString creds.CertificateAuthorityData
        Server := creds.Server } }]
    Contexts := [{
      Context := { Cluster := clusterName, User := userName }
      Name := clusterName }]
    CurrentContext := clusterName
    Users := [{ Name := userName, User := user2 }] }

/-- A YAML document tree: scalars, mappings with ordered string keys, and
sequences. -/
inductive YamlNode where
  | scalar (value : String)
  | mapping (entries : List (String × YamlNode))
  | sequence (items : List YamlNode)

/-- The value stored under a key of a mapping node. -/
def YamlNode.get? : YamlNode → String → Option YamlNode
  | .mapping entries, key => entries.lookup key
  | _, _ => none

/-- The scalar text of a node, when it is a scalar. -/
def YamlNode.scalar? : YamlNode → Option String
  | .scalar value => some value
  | _ => none

/-- The items of a node, when it is a sequence. -/
def YamlNode.items? : YamlNode → Option (List YamlNode)
  | .sequence items => some items
  | _ => none

/-- The scalar text stored under a key of a mapping node. -/
def YamlNode.text? (n : YamlNode) (key : String) : Option String :=
  (n.get? key).bind YamlNode.scalar?

/-- A struct field tagged `omitempty`: left out when the string is empty. -/
def omitempty (key value : String) : List (String × YamlNode) :=
  if value = "" then [] else [(key, .scalar value)]

/-- The mapping of `kubernetesConfigUserData`, by its `yaml` struct tags. -/
def kubernetesConfigUserData.toYaml (u : kubernetesConfigUserData) : YamlNode :=
  .mapping (omitempty "client-key-data" u.ClientKeyData
    ++ omitempty "client-certificate-data" u.ClientCertificateData
    ++ [("token", .scalar u.Token)])

/-- The mapping of `kubernetesConfigUser`, by its `yaml` struct tags. -/
def kubernetesConfigUser.toYaml (u : kubernetesConfigUser) : YamlNode :=
  .mapping [("name", .scalar u.Name), ("user", u.User.toYaml)]

/-- The mapping of `kubernetesConfigContext`, by its `yaml` struct tags. -/
def kubernetesConfigContext.toYaml (c : kubernetesConfigContext) : YamlNode :=
  .mapping [
    ("context", .mapping [
      ("cluster", .scalar c.Context.Cluster), ("user", .scalar c.Context.User)]),
    ("name", .scalar c.Name)]

/-- The mapping of `kubernetesConfigCluster`, by its `yaml` struct tags. -/
def kubernetesConfigCluster.toYaml (c : kubernetesConfigCluster) : YamlNode :=
  .mapping [
    ("cluster", .mapping [
      ("certificate-authority-data", .scalar c.Cluster.CertificateAuthorityData),
      ("server", .scalar c.Cluster.Server)]),
    ("name", .scalar c.Name)]

/-- The mapping of `kubernetesConfig`: the fields in declaration order under
the key names of their `yaml` struct tags. -/
def kubernetesConfig.toYaml (c : kubernetesConfig) : YamlNode :=
  .mapping [
    ("apiVersion", .scalar c.APIVersion),
    ("kind", .scalar c.Kind),
    ("clusters", .sequence (c.Clusters.map kubernetesConfigCluster.toYaml)),
    ("contexts", .sequence (c.Contexts.map kubernetesConfigContext.toYaml)),
    ("current-context", .scalar c.CurrentContext),
    ("users", .sequence (c.Users.map kubernetesConfigUser.toYaml))]

/-- Modelled from the spec: part of `yaml.Marshal`, whose code is not among the
sources. The lines of a sequence item: the first behind the dash, the others
aligned with it. -/
def indentItem : List String → List String
  | [] => []
  | l :: ls => ("- " ++ l) :: ls.map ("  " ++ ·)

mutual
/-- Modelled from the spec: part of `yaml.Marshal`, whose code is not among the
sources. The lines of a node in block style, relative to its own indentation;
a scalar is written as plain text. -/
def YamlNode.lines : YamlNode → List String
  | .scalar value => [value]
  | .mapping [] => ["\x7b\x7d"]
  | .mapping (e :: m) => entriesLines (e :: m)
  | .sequence [] => ["[]"]
  | .sequence (x :: xs) => itemsLines (x :: xs)
/-- Modelled from the spec: part of `yaml.Marshal`, whose code is not among the
sources. The lines of the entries of a block mapping: a scalar on the line of its
key, a nested mapping two columns in, a nested sequence at the column of its
key. -/
def entriesLines : List (String × YamlNode) → List String
  | [] => []
  | (key, .scalar value) :: es => (key ++ ": " ++ value) :: entriesLines es
  | (key, .mapping []) :: es => (key ++ ": \x7b\x7d") :: entriesLines es
  | (key, .mapping (e :: m)) :: es =>
    (key ++ ":") :: (entriesLines (e :: m)).map ("  " ++ ·) ++ entriesLines es
  | (key, .sequence []) :: es => (key ++ ": []") :: entriesLines es
  | (key, .sequence (x :: xs)) :: es =>
    (key ++ ":") :: itemsLines (x :: xs) ++ entriesLines es
/-- Modelled from the spec: part of `yaml.Marshal`, whose code is not among the
sources. The lines of the items of a block sequence. -/
def itemsLines : List YamlNode → List String
  | [] => []
  | x :: xs => indentItem x.lines ++ itemsLines xs
end

/-- Modelled from the spec: `yaml.Marshal` of the library `gopkg.in/yaml.v2`,
whose code is not among the sources. The block layout, computed by
`YamlNode.lines`, is the one the specification and the golden test fix:
two-column indentation, sequences at the column of their key, every line ended
by a newline. Scalars are written as plain text: the quoting the library
applies to strings that are empty or carry YAML indicators is outside the
model. -/
def yamlMarshal (c : kubernetesConfig) : String :=
  String.join (c.toYaml.lines.map (· ++ "\n"))

/-- The function `renderKubeconfig`: builds the config value and marshals it.
The marshal error is `nil` for this struct type. -/
def renderKubeconfig (name region : String) (creds : KubernetesClusterCredentials) :
    Except String String :=
  .ok (yamlMarshal (kubeconfigOf name region creds))

/-- A character that never keeps a scalar from being written as plain text. -/
def plainChar (c : Char) : Bool :=
  c.isAlphanum || c == '-' || c == '.' || c == '_' || c == '/' || c == '+' || c == '='

/-- Text made of such characters and of colons, no colon being the last
character. -/
def plainChars : List Char → Bool
  | [] => true
  | [c] => plainChar c
  | c :: d :: rest => (plainChar c || c == ':') && plainChars (d :: rest)

/-- The words starting with a letter that YAML 1.1 reads as a boolean or as
null. -/
def yamlReservedWords : List String :=
  ["y", "Y", "yes", "Yes", "YES", "n", "N", "no", "No", "NO",
   "true", "True", "TRUE", "false", "False", "FALSE",
   "on", "On", "ON", "off", "Off", "OFF", "null", "Null", "NULL"]

/-- Modelled from the spec: a sufficient condition for `yaml.Marshal`, whose
code is not among the sources, to write a string as a plain scalar, without
quotes, as `yamlMarshal` always does: the string starts with a letter, is made
of letters, digits, `-._/+=` and colons that are not last, and is not a word
YAML reads as a boolean or as null. Strings outside it, such as the empty
string or `12e3`, may be written quoted by the library. -/
def plainScalar (s : String) : Bool :=
  match s.data with
  | [] => false
  | c :: _ => c.isAlpha && plainChars s.data && !(yamlReservedWords.contains s)

/-- Every scalar of the config is written as plain text by the library; an
empty `omitempty` field is not written at all. -/
def kubernetesConfig.plainScalars (c : kubernetesConfig) : Bool :=
  plainScalar c.APIVersion && plainScalar c.Kind && plainScalar c.CurrentContext
    && c.Clusters.all (fun x =>
      plainScalar x.Name && plainScalar x.Cluster.CertificateAuthorityData
        && plainScalar x.Cluster.Server)
    && c.Contexts.all (fun x =>
      plainScalar x.Name && plainScalar x.Context.Cluster && plainScalar x.Context.User)
    && c.Users.all (fun u =>
      plainScalar u.Name && plainScalar u.User.Token
        && (u.User.ClientKeyData == "" || plainScalar u.User.ClientKeyData)
        && (u.User.ClientCertificateData == "" || plainScalar u.User.ClientCertificateData))

/-- The CA bytes of `Test_renderKubeconfig`. -/
def testCertAuth : List Nat :=
  bytesOfString
    "LS0tLS1CRUdJTiBDRVJUSUZJQ0FURS0tLS0tCk1JSURKekNDQWWlOQT09Ci0tLS0tRU5EIENFUlRJRklDQVRFLS0tLS0K"

/-- The credentials of `Test_renderKubeconfig`; the expiry, `time.Now()` in the
test, is not rendered. -/
def testCreds (expiresAt : Time) : KubernetesClusterCredentials :=
  { Server := "https://6a37a0f6-c355-4527-b54d-521beffd9817.k8s.ondigitalocean.com"
    CertificateAuthorityData := testCertAuth
    ClientCertificateData := none
    ClientKeyData := none
    Token := "97ae2bbcfd85c34155a56b822ffa73909d6770b28eb7e5dfa78fa83e02ffc60f"
    ExpiresAt := expiresAt }

/-- The `expected` text of `Test_renderKubeconfig`, its `%v` being the base64
encoding of the CA bytes. -/
def testExpected : String :=
  "apiVersion: v1\n" ++
  "kind: Config\n" ++
  "clusters:\n" ++
  "- cluster:\n" ++
  "    certificate-authority-data: " ++ EncodeToString testCertAuth ++ "\n" ++
  "    server: https://6a37a0f6-c355-4527-b54d-521beffd9817.k8s.ondigitalocean.com\n" ++
  "  name: do-lon1-test-cluster\n" ++
  "contexts:\n" ++
  "- context:\n" ++
  "    cluster: do-lon1-test-cluster\n" ++
  "    user: do-lon1-test-cluster-admin\n" ++
  "  name: do-lon1-test-cluster\n" ++
  "current-context: do-lon1-test-cluster\n" ++
  "users:\n" ++
  "- name: do-lon1-test-cluster-admin\n" ++
  "  user:\n" ++
  "    token: 97ae2bbcfd85c34155a56b822ffa73909d6770b28eb7e5dfa78fa83e02ffc60f\n"

/-! ## The remote API and the resource state -/

/-- The part of `godo.Response` the resource looks at. -/
structure Response where
  StatusCode : Nat
  deriving DecidableEq, Repr

/-- The fields of `godo.KubernetesNodePool` the resource reads. -/
structure KubernetesNodePool where
  ID : String
  Name : String
  Size : String
  Count : Int
  Tags : List String
  deriving DecidableEq, Repr

/-- The fields of `godo.KubernetesCluster` the resource reads; `State` stands
for `Status.State`. -/
structure KubernetesCluster where
  ID : String
  Name : String
  RegionSlug : String
  VersionSlug : String
  ClusterSubnet : String
  ServiceSubnet : String
  IPv4 : String
  Endpoint : String
  Tags : List String
  NodePools : List KubernetesNodePool
  State : String
  CreatedAt : Time
  UpdatedAt : Time
  deriving DecidableEq, Repr

/-- What `client.Kubernetes.GetCredentials` returns: `(creds, resp, err)`. -/
structure CredentialsReply where
  creds : Option KubernetesClusterCredentials
  resp : Option Response
  err : Option String
  deriving DecidableEq, Repr

/-- The element of the `kube_config` list, a `map[string]interface{}` over the
keys of `kubernetesConfigSchema`; `none` is a key that is not in the map. -/
structure KubeConfig where
  raw_config : Option String
  host : Option String
  cluster_ca_certificate : Option String
  client_key : Option String
  client_certificate : Option String
  token : Option String
  expires_at : Option String
  deriving DecidableEq, Repr

/-- The element of the `node_pool` list of the state. -/
structure NodePool where
  id : String
  name : String
  size : String
  node_count : Int
  tags : List String
  deriving DecidableEq, Repr

/-- The `schema.ResourceData` of a cluster: its ID and the attributes of
`resourceDigitalOceanKubernetesCluster`. -/
structure ResourceData where
  id : String
  name : String
  region : String
  version : String
  cluster_subnet : String
  service_subnet : String
  ipv4_address : String
  endpoint : String
  tags : List String
  node_pool : List NodePool
  status : String
  created_at : String
  updated_at : String
  kube_config : List KubeConfig
  deriving DecidableEq, Repr

/-- A call to the remote API. -/
inductive RemoteCall where
  | GetCredentials (clusterID : String)
  | Get (clusterID : String)
  | Update (clusterID : String)
  | UpdateNodePool (clusterID poolID : String)
  | Delete (clusterID : String)
  deriving DecidableEq, Repr

/-- What `client.Kubernetes.Update` and `client.Kubernetes.Delete` return, as
far as it is read: `(resp, err)`. -/
structure Reply where
  resp : Option Response
  err : Option String
  deriving DecidableEq, Repr

/-- What a call of `digitaloceanKubernetesNodePoolUpdate` does: the remote calls
it makes and the error it returns. -/
structure NodePoolUpdateReply where
  calls : List RemoteCall
  err : Option String
  deriving DecidableEq, Repr

/-- What the operations take from outside this file: the clock and the time
formats of the Go library, the marker tag, `flattenNodePool` and
`digitaloceanKubernetesNodePoolUpdate` of the node pool resource, and the
remote API. A `Get` reply depends on how many `Get` calls came before it;
`GetResp` is the `resp` of that reply, `Get` its cluster or its error.
`flattenTags` is the function of the provider that makes the set of tags of
the state from a slice; the set is held as a list of its members. -/
structure Env where
  now : Time
  parseRFC3339 : String → Except String Time
  formatRFC3339 : Time → String
  timeString : Time → String
  digitaloceanKubernetesDefaultNodePoolTag : String
  flattenNodePool : KubernetesNodePool → List String → List NodePool
  Get : String → Nat → Except String KubernetesCluster
  GetCredentials : String → CredentialsReply
  GetResp : String → Nat → Option Response
  Update : String → String → List String → Reply
  Delete : String → Reply
  digitaloceanKubernetesNodePoolUpdate : NodePool → String → String → String →
    NodePoolUpdateReply
  flattenTags : List String → List String

/-- How an operation ends: `nil`, an error, or a run-time panic. -/
inductive Outcome where
  | ok
  | error (msg : String)
  | panic
  deriving DecidableEq, Repr

/-- The state an operation leaves, the remote calls it made, in order, and how
it ended. -/
structure OpResult where
  d : ResourceData
  calls : List RemoteCall
  outcome : Outcome
  deriving DecidableEq, Repr

/-- The number of credentials fetches among the remote calls. -/
def credentialFetches (calls : List RemoteCall) : Nat :=
  calls.countP (fun c => match c with | .GetCredentials _ => true | _ => false)

/-! ## Flattening credentials -/

/-- The function `flattenCredentials` for a non-nil `creds`: the `raw` map, and the one
element list around it, or `nil` when rendering fails. -/
def flattenCredentials (formatRFC3339 : Time → String) (name region : String)
    (creds : KubernetesClusterCredentials) : List KubeConfig :=
  let raw0 : KubeConfig :=
    { raw_config := none
      host := some creds.Server
      cluster_ca_certificate := some (EncodeToString creds.CertificateAuthorityData)
      client_key := none
      client_certificate := none
      token := some creds.Token
      expires_at := some (formatRFC3339 creds.ExpiresAt) }
  let raw1 : KubeConfig :=
    match creds.ClientKeyData with
    | some key => { raw0 with client_key := some (stringOfBytes key) }
    | none => raw0
  let raw2 : KubeConfig :=
    match creds.ClientCertificateData with
    | some cert => { raw1 with client_certificate := some (stringOfBytes cert) }
    | none => raw1
  match renderKubeconfig name region creds with
  | .error _ => []
  | .ok kubeconfigYAML => [{ raw2 with raw_config := some kubeconfigYAML }]

/-! ## Reading a cluster -/

/-- The loop over `cluster.NodePools` and the tags of each pool: every tag equal
to the marker writes the flattened pool to `node_pool`. -/
def setDefaultNodePool (env : Env) (cluster : KubernetesCluster) (d : ResourceData) :
    ResourceData :=
  cluster.NodePools.foldl
    (fun d p => p.Tags.foldl
      (fun d t =>
        if t = env.digitaloceanKubernetesDefaultNodePoolTag then
          { d with node_pool := env.flattenNodePool p cluster.Tags }
        else d)
      d)
    d

/-- The `expires_at` entry of the cached credentials: `creds` is the first
element of `kube_config` when there is one and the nil map otherwise, and
indexing gives `nil` for a missing key. -/
def cachedExpiresAt (d : ResourceData) : Option String :=
  match d.kube_config with
  | [] => none
  | creds :: _ => creds.expires_at

/-- The value of `expiresAt` after the parsing block: the zero time unless
`expires_at` is present and non-empty, in which case it is parsed. -/
def cachedExpiry (env : Env) (d : ResourceData) : Except String Time :=
  match cachedExpiresAt d with
  | none => .ok 0
  | some s => if s ≠ "" then env.parseRFC3339 s else .ok 0

/-- The test `resp != nil && resp.StatusCode == 404`. -/
def notFound (resp : Option Response) : Bool :=
  match resp with
  | some r => r.StatusCode == 404
  | none => false

/-- The statement `d.Set("kube_config", flattenCredentials(cluster.Name,
cluster.RegionSlug, creds))` closing the fetch, and the `return nil` after it.
`flattenCredentials` reads the fields of `creds` at once, so a nil `creds`
panics. -/
def setKubeConfig (env : Env) (cluster : KubernetesCluster) (d : ResourceData)
    (calls : List RemoteCall) (creds : Option KubernetesClusterCredentials) : OpResult :=
  match creds with
  | none => ⟨d, calls, .panic⟩
  | some c =>
    ⟨{ d with kube_config :=
        flattenCredentials env.formatRFC3339 cluster.Name cluster.RegionSlug c },
      calls, .ok⟩

/-- The first statements of `digitaloceanKubernetesClusterRead`: the
attributes of the observed cluster, `tags` through `filterTags` and
`flattenTags`. -/
def setClusterAttributes (env : Env) (cluster : KubernetesCluster) (d : ResourceData) :
    ResourceData :=
  { d with
    name := cluster.Name
    region := cluster.RegionSlug
    version := cluster.VersionSlug
    cluster_subnet := cluster.ClusterSubnet
    service_subnet := cluster.ServiceSubnet
    ipv4_address := cluster.IPv4
    endpoint := cluster.Endpoint
    tags := env.flattenTags (filterTags cluster.Tags)
    status := cluster.State
    created_at := env.timeString cluster.CreatedAt
    updated_at := env.timeString cluster.UpdatedAt }

/-- The last part of `digitaloceanKubernetesClusterRead`: the cached expiry is
parsed, and the credentials are fetched and stored again when it is zero or
before `time.Now()`. A failed fetch returns an error only on a 404 reply. -/
def refreshCredentials (env : Env) (cluster : KubernetesCluster) (d : ResourceData) :
    OpResult :=
  match cachedExpiry env d with
  | .error err =>
    ⟨d, [], .error ("Unable to parse Kubernetes credentials expiry: " ++ err)⟩
  | .ok expiresAt =>
    if expiresAt = 0 ∨ expiresAt < env.now then
      let reply := env.GetCredentials cluster.ID
      let calls := [RemoteCall.GetCredentials cluster.ID]
      match reply.err with
      | some err =>
        if notFound reply.resp then
          ⟨d, calls, .error ("Unable to fetch Kubernetes credentials: " ++ err)⟩
        else
          setKubeConfig env cluster d calls reply.creds
      | none => setKubeConfig env cluster d calls reply.creds
    else
      ⟨d, [], .ok⟩

/-- The function `digitaloceanKubernetesClusterRead`: the attributes of the observed
cluster, the default node pool, then the credentials. -/
def digitaloceanKubernetesClusterRead (env : Env) (cluster : KubernetesCluster)
    (d : ResourceData) : OpResult :=
  refreshCredentials env cluster
    (setDefaultNodePool env cluster (setClusterAttributes env cluster d))

/-- The function `resourceDigitalOceanKubernetesClusterRead`, after `gets`
earlier `Get` calls: one `Get` for the ID of the resource; a 404 clears the ID
and returns `nil`, another error is returned, and a cluster is read into the
state. -/
def resourceDigitalOceanKubernetesClusterRead (env : Env) (gets : Nat) (d : ResourceData) :
    OpResult :=
  match env.Get d.id gets with
  | .error err =>
    if notFound (env.GetResp d.id gets) then
      ⟨{ d with id := "" }, [.Get d.id], .ok⟩
    else
      ⟨d, [.Get d.id], .error ("Error retrieving Kubernetes cluster: " ++ err)⟩
  | .ok cluster =>
    let r := digitaloceanKubernetesClusterRead env cluster d
    ⟨r.d, .Get d.id :: r.calls, r.outcome⟩

/-! ## Updating and deleting a cluster -/

/-- What the resource data reports about the planned change in an update:
`d.HasChange` for the three keys the update asks about, and the old and new
values of `d.GetChange("node_pool")`. -/
structure Changes where
  name : Bool
  tags : Bool
  node_pool : Bool
  oldNodePool : List NodePool
  newNodePool : List NodePool
  deriving DecidableEq, Repr

/-- The second half of `resourceDigitalOceanKubernetesClusterUpdate`, after the
remote calls `calls`: without a change of `node_pool` the resource is read;
with one the default pool is updated first, an error of that update is
returned as it is. Indexing an empty old or new list panics. -/
def updateDefaultNodePool (env : Env) (chg : Changes) (d : ResourceData)
    (calls : List RemoteCall) : OpResult :=
  if !chg.node_pool then
    let r := resourceDigitalOceanKubernetesClusterRead env 0 d
    ⟨r.d, calls ++ r.calls, r.outcome⟩
  else
    match chg.oldNodePool, chg.newNodePool with
    | oldPool :: _, newPool :: _ =>
      let u := env.digitaloceanKubernetesNodePoolUpdate newPool d.id oldPool.id
        env.digitaloceanKubernetesDefaultNodePoolTag
      match u.err with
      | some err => ⟨d, calls ++ u.calls, .error err⟩
      | none =>
        let r := resourceDigitalOceanKubernetesClusterRead env 0 d
        ⟨r.d, calls ++ u.calls ++ r.calls, r.outcome⟩
    | _, _ => ⟨d, calls, .panic⟩

/-- The function `resourceDigitalOceanKubernetesClusterUpdate`: a change of
`name` or `tags` makes one `Update` call, whose 404 clears the ID and returns
`nil` and whose other errors are returned; then the node pool part. -/
def resourceDigitalOceanKubernetesClusterUpdate (env : Env) (chg : Changes)
    (d : ResourceData) : OpResult :=
  if chg.name || chg.tags then
    let reply := env.Update d.id d.name d.tags
    match reply.err with
    | some err =>
      if notFound reply.resp then
        ⟨{ d with id := "" }, [.Update d.id], .ok⟩
      else
        ⟨d, [.Update d.id], .error ("Unable to update cluster: " ++ err)⟩
    | none => updateDefaultNodePool env chg d [.Update d.id]
  else
    updateDefaultNodePool env chg d []

/-- The function `resourceDigitalOceanKubernetesClusterDelete`: one `Delete`
call; a 404 or a success clears the ID and returns `nil`, another error is
returned. -/
def resourceDigitalOceanKubernetesClusterDelete (env : Env) (d : ResourceData) : OpResult :=
  let reply := env.Delete d.id
  match reply.err with
  | some err =>
    if notFound reply.resp then
      ⟨{ d with id := "" }, [.Delete d.id], .ok⟩
    else
      ⟨d, [.Delete d.id], .error ("Unable to delete cluster: " ++ err)⟩
  | none => ⟨{ d with id := "" }, [.Delete d.id], .ok⟩

/-! ## Waiting for a cluster to run -/

/-- What `waitForKubernetesClusterCreate` returns, `(cluster, err)`, and the
number of `Get` calls it made. -/
structure WaitResult where
  cluster : Option KubernetesCluster
  err : Option String
  polls : Nat
  deriving DecidableEq, Repr

/-- The loop of `waitForKubernetesClusterCreate`, one iteration per tick, at
counter `n` after `polls` earlier `Get` calls. -/
def waitLoop (get : Nat → Except String KubernetesCluster) (timeout n polls : Nat) :
    WaitResult :=
  match get polls with
  | .error err =>
    ⟨none, some ("Error trying to read cluster state: " ++ err), polls + 1⟩
  | .ok cluster =>
    if cluster.State = "running" then
      ⟨some cluster, none, polls + 1⟩
    else if n > timeout then
      ⟨none, some "Timeout waiting to create cluster", polls + 1⟩
    else
      waitLoop get timeout (n + 1) (polls + 1)
termination_by timeout + 1 - n
decreasing_by omega

/-- The function `waitForKubernetesClusterCreate`: `timeout := 120`, `n := 0`, then the
loop. -/
def waitForKubernetesClusterCreate (env : Env) (id : String) : WaitResult :=
  waitLoop (env.Get id) 120 0 0

/-- A poll that succeeds with a state other than `running`. -/
def notYetRunning (r : Except String KubernetesCluster) : Prop :=
  ∃ cluster, r = .ok cluster ∧ cluster.State ≠ "running"

/-! ## Concrete inputs -/

/-- Credentials with a three byte client key, `abc`, and no client
certificate. -/
def credsWithKey : KubernetesClusterCredentials :=
  { Server := "https://k8s.example.com"
    CertificateAuthorityData := [1, 2, 3]
    ClientCertificateData := none
    ClientKeyData := some [97, 98, 99]
    Token := "token"
    ExpiresAt := 63694944000000000000 }

/-- A cluster with no node pool, in the given state. -/
def clusterInState (state : String) : KubernetesCluster :=
  { ID := "c1", Name := "test-cluster", RegionSlug := "lon1", VersionSlug := "1.14.1-do.2"
    ClusterSubnet := "", ServiceSubnet := "", IPv4 := "", Endpoint := "", Tags := []
    NodePools := [], State := state, CreatedAt := 0, UpdatedAt := 0 }

/-- A cached credentials block holding nothing but an `expires_at`. -/
def cachedBlock (expiresAt : String) : KubeConfig :=
  { raw_config := none, host := none, cluster_ca_certificate := none, client_key := none
    client_certificate := none, token := none, expires_at := some expiresAt }

/-- A resource state with the given cached credentials. -/
def stateWith (kubeConfig : List KubeConfig) : ResourceData :=
  { id := "c1", name := "", region := "", version := "", cluster_subnet := ""
    service_subnet := "", ipv4_address := "", endpoint := "", tags := [], node_pool := []
    status := "", created_at := "", updated_at := "", kube_config := kubeConfig }

/-- An environment at the given current time. Its parser knows one timestamp,
`2019-06-01T00:00:00Z`, the instant 63694944000 seconds after the zero time;
the first `running` polls of a cluster are numbered from `running` on, and
every credentials fetch succeeds. -/
def envAt (now : Time) (running : Nat) : Env :=
  { now := now
    parseRFC3339 := fun s =>
      if s = "2019-06-01T00:00:00Z" then .ok 63694944000000000000
      else .error "cannot parse"
    formatRFC3339 := fun _ => "2019-06-08T00:00:00Z"
    timeString := fun _ => ""
    digitaloceanKubernetesDefaultNodePoolTag := "terraform:default-node-pool"
    flattenNodePool := fun p tags =>
      [{ id := p.ID, name := p.Name, size := p.Size, node_count := p.Count, tags := tags }]
    Get := fun _ i =>
      if i < running then .ok (clusterInState "provisioning") else .ok (clusterInState "running")
    GetCredentials := fun _ => ⟨some credsWithKey, some ⟨200⟩, none⟩
    GetResp := fun _ _ => some ⟨200⟩
    Update := fun _ _ _ => ⟨some ⟨200⟩, none⟩
    Delete := fun _ => ⟨some ⟨204⟩, none⟩
    digitaloceanKubernetesNodePoolUpdate := fun _ clusterID poolID _ =>
      ⟨[.UpdateNodePool clusterID poolID], none⟩
    flattenTags := fun tags => tags.dedup }

/-- An environment in which every poll of a cluster answers `provisioning`. -/
def envPending : Env :=
  { envAt 0 0 with Get := fun _ _ => .ok (clusterInState "provisioning") }

/-- An environment in which the polls from the given one on fail. -/
def envFailing (failing : Nat) : Env :=
  { envAt 0 0 with
    Get := fun _ i =>
      if i < failing then .ok (clusterInState "provisioning") else .error "503 unavailable" }

/-- A planned update in which nothing changed. -/
def noChange : Changes :=
  { name := false, tags := false, node_pool := false, oldNodePool := [], newNodePool := [] }

/-- A planned update in which only the name changed. -/
def nameChange : Changes :=
  { noChange with name := true }

/-- An environment whose `Update` call answers 404. -/
def envUpdateNotFound : Env :=
  { envAt 0 0 with Update := fun _ _ _ => ⟨some ⟨404⟩, some "404 Not Found"⟩ }

/-- An environment whose `Delete` call gives the given reply. -/
def envDelete (reply : Reply) : Env :=
  { envAt 0 0 with Delete := fun _ => reply }

/-- An environment whose credentials fetch gives the given reply. -/
def envCredentials (reply : CredentialsReply) : Env :=
  { envAt 0 0 with GetCredentials := fun _ => reply }

/-- A node pool with the given ID and tags. -/
def poolWith (id : String) (tags : List String) : KubernetesNodePool :=
  { ID := id, Name := id, Size := "s-1vcpu-2gb", Count := 1, Tags := tags }

/-- A running cluster with the given node pools. -/
def clusterWithPools (pools : List KubernetesNodePool) : KubernetesCluster :=
  { clusterInState "running" with NodePools := pools }

/-! ## Lemmas on tag filtering -/

theorem hasPrefix_iff (s pre : String) :
    HasPrefix s pre = true ↔ ∃ rest : String, s = pre ++ rest := by
  unfold HasPrefix
  constructor
  · intro h
    simp only [Bool.and_eq_true, decide_eq_true_eq, beq_iff_eq] at h
    refine ⟨⟨s.data.drop pre.data.length⟩, ?_⟩
    apply String.ext
    rw [String.data_append]
    conv_lhs => rw [← List.take_append_drop pre.data.length s.data]
    rw [h.2]
  · rintro ⟨rest, rfl⟩
    simp [String.data_append]

theorem keepTag_iff (t : String) : keepTag t = true ↔ ¬ ReservedTag t := by
  unfold keepTag ReservedTag
  simp only [Bool.and_eq_true, Bool.not_eq_true', bne_iff_ne, ne_eq, not_or]
  rw [← Bool.not_eq_true, ← Bool.not_eq_true, hasPrefix_iff, hasPrefix_iff]
  tauto

theorem filterTags_foldl (acc tags : List String) :
    tags.foldl (fun filteredTags t => if keepTag t then filteredTags ++ [t] else filteredTags) acc
      = acc ++ tags.filter keepTag := by
  induction tags generalizing acc with
  | nil => simp
  | cons t ts ih =>
    rw [List.foldl_cons, ih]
    by_cases h : keepTag t = true
    · simp [h]
    · simp [h]

theorem filterTags_eq_filter (tags : List String) : filterTags tags = tags.filter keepTag := by
  unfold filterTags
  rw [filterTags_foldl]
  simp

/-! ## Tag filtering: the claims -/

/-- C1: for every list of tags, `filterTags` returns the input with exactly the
reserved tags removed (those starting with `k8s:` or `terraform:`, or equal to
`k8s`), the kept tags in their original order and multiplicity; it is a total
function, and the third case of `Test_filterTags` gives
`["bar", "k8s-this-is-ok"]`. -/
theorem filterTags_removes_exactly_reserved (tags : List String) :
    filterTags tags = tags.filter keepTag
      ∧ (∀ t, keepTag t = true ↔ ¬ ReservedTag t)
      ∧ (filterTags tags).Sublist tags
      ∧ (∀ t, ReservedTag t → t ∉ filterTags tags)
      ∧ (∀ t, ¬ ReservedTag t → (filterTags tags).count t = tags.count t)
      ∧ filterTags ["k8s", "k8s:looks-like-a-uuid", "bar", "k8s-this-is-ok"]
          = ["bar", "k8s-this-is-ok"] := by
  refine ⟨filterTags_eq_filter tags, keepTag_iff, ?_, ?_, ?_, by decide⟩
  · rw [filterTags_eq_filter]
    exact List.filter_sublist tags
  · intro t ht hmem
    rw [filterTags_eq_filter, List.mem_filter] at hmem
    exact (keepTag_iff t).mp hmem.2 ht
  · intro t ht
    rw [filterTags_eq_filter, List.count_filter ((keepTag_iff t).mpr ht)]

/-- C2: `filterTags` is idempotent. -/
theorem filterTags_idempotent (x : List String) :
    filterTags (filterTags x) = filterTags x := by
  rw [filterTags_eq_filter, filterTags_eq_filter, List.filter_filter]
  simp

/-! ## The kubeconfig document -/

/-- The test vectors of RFC 4648, section 10. -/
theorem EncodeToString_rfc4648 :
    EncodeToString (bytesOfString "") = ""
      ∧ EncodeToString (bytesOfString "f") = "Zg=="
      ∧ EncodeToString (bytesOfString "fo") = "Zm8="
      ∧ EncodeToString (bytesOfString "foo") = "Zm9v"
      ∧ EncodeToString (bytesOfString "foob") = "Zm9vYg=="
      ∧ EncodeToString (bytesOfString "fooba") = "Zm9vYmE="
      ∧ EncodeToString (bytesOfString "foobar") = "Zm9vYmFy"
      ∧ EncodeToString [251, 255, 190] = "+/++" := by
  decide

theorem base64Encode_ne_nil (b : List Nat) (h : b ≠ []) : EncodeToString b ≠ "" := by
  intro hEq
  have hdata : base64Encode b = [] := congrArg String.data hEq
  match b, h with
  | [_], _ => simp [base64Encode] at hdata
  | [_, _], _ => simp [base64Encode] at hdata
  | _ :: _ :: _ :: _, _ => simp [base64Encode] at hdata

/-- C3: for the name, region and credentials of `Test_renderKubeconfig`
(server, CA bytes and token, no client key, no client certificate, any expiry)
`renderKubeconfig` returns, without error, exactly the golden text of the test;
the CA bytes appear in it base64-encoded. -/
theorem renderKubeconfig_golden (expiresAt : Time) :
    renderKubeconfig "test-cluster" "lon1" (testCreds expiresAt) = .ok testExpected
      ∧ EncodeToString testCertAuth =
          "TFMwdExTMUNSVWRKVGlCRFJWSlVTVVpKUTBGVVJTMHRMUzB0Q2sxSlNVUktla05EUVdXbE9RVDA5Q2kwdExTMHRSVTVFSUVORlVsUkpSa2xEUVZSRkxTMHRMUzBL" :=
  ⟨rfl, by decide⟩


/-- C4: for every name, region and credentials, `renderKubeconfig` marshals a
document with `apiVersion` `v1`, kind `Config`, exactly one cluster, one context
and one user; the cluster name, the context name, the cluster reference of the
context and `current-context` are all `do-<region>-<name>`, the user reference
of the context and the user name are `do-<region>-<name>-admin`. -/
theorem renderKubeconfig_names (name region : String) (creds : KubernetesClusterCredentials) :
    renderKubeconfig name region creds = .ok (yamlMarshal (kubeconfigOf name region creds))
      ∧ (kubeconfigOf name region creds).APIVersion = "v1"
      ∧ (kubeconfigOf name region creds).Kind = "Config"
      ∧ (kubeconfigOf name region creds).CurrentContext = "do-" ++ region ++ "-" ++ name
      ∧ (∃ cluster context user,
          (kubeconfigOf name region creds).Clusters = [cluster]
          ∧ (kubeconfigOf name region creds).Contexts = [context]
          ∧ (kubeconfigOf name region creds).Users = [user]
          ∧ cluster.Name = "do-" ++ region ++ "-" ++ name
          ∧ context.Name = "do-" ++ region ++ "-" ++ name
          ∧ context.Context.Cluster = "do-" ++ region ++ "-" ++ name
          ∧ context.Context.User = "do-" ++ region ++ "-" ++ name ++ "-admin"
          ∧ user.Name = "do-" ++ region ++ "-" ++ name ++ "-admin")
      ∧ (kubeconfigOf name region creds).toYaml.text? "apiVersion" = some "v1"
      ∧ (kubeconfigOf name region creds).toYaml.text? "kind" = some "Config"
      ∧ (kubeconfigOf name region creds).toYaml.text? "current-context"
          = some ("do-" ++ region ++ "-" ++ name)
      ∧ (∃ cluster context user,
          ((kubeconfigOf name region creds).toYaml.get? "clusters").bind YamlNode.items?
            = some [cluster]
          ∧ ((kubeconfigOf name region creds).toYaml.get? "contexts").bind YamlNode.items?
            = some [context]
          ∧ ((kubeconfigOf name region creds).toYaml.get? "users").bind YamlNode.items?
            = some [user]
          ∧ cluster.text? "name" = some ("do-" ++ region ++ "-" ++ name)
          ∧ context.text? "name" = some ("do-" ++ region ++ "-" ++ name)
          ∧ (context.get? "context").bind (YamlNode.text? · "cluster")
            = some ("do-" ++ region ++ "-" ++ name)
          ∧ (context.get? "context").bind (YamlNode.text? · "user")
            = some ("do-" ++ region ++ "-" ++ name ++ "-admin")
          ∧ user.text? "name" = some ("do-" ++ region ++ "-" ++ name ++ "-admin")) :=
  ⟨rfl, rfl, rfl, rfl, ⟨_, _, _, rfl, rfl, rfl, rfl, rfl, rfl, rfl, rfl⟩, rfl, rfl, rfl,
    ⟨_, _, _, rfl, rfl, rfl, rfl, rfl, rfl, rfl, rfl⟩⟩

theorem lookup_userData_token (u : kubernetesConfigUserData) :
    u.toYaml.text? "token" = some u.Token := by
  unfold kubernetesConfigUserData.toYaml omitempty YamlNode.text? YamlNode.get?
  split_ifs <;> simp [List.lookup, YamlNode.scalar?]

theorem lookup_userData_key (u : kubernetesConfigUserData) :
    u.toYaml.get? "client-key-data"
      = if u.ClientKeyData = "" then none else some (.scalar u.ClientKeyData) := by
  unfold kubernetesConfigUserData.toYaml omitempty YamlNode.get?
  split_ifs <;> simp [List.lookup]

theorem lookup_userData_cert (u : kubernetesConfigUserData) :
    u.toYaml.get? "client-certificate-data"
      = if u.ClientCertificateData = "" then none
        else some (.scalar u.ClientCertificateData) := by
  unfold kubernetesConfigUserData.toYaml omitempty YamlNode.get?
  split_ifs <;> simp [List.lookup]

/-- C5: for every name, region and credentials, `renderKubeconfig` returns the
marshalled config whose single user entry carries the token verbatim and whose
client key data (client certificate data) is the standard base64 encoding of
the client key (client certificate) bytes when they are present; in the
document tree the encoding stands under `client-key-data`
(`client-certificate-data`) unless it is the empty string, and when the bytes
are absent the key is not in the user mapping. Whenever the scalars are ones the
library writes as plain text, the text `renderKubeconfig` returns is exactly
the lines below: the token verbatim, a `client-key-data` and a
`client-certificate-data` line holding the base64 encoding when the bytes are
present and not empty, and no such line when they are absent. -/
theorem renderKubeconfig_user (name region : String) (creds : KubernetesClusterCredentials) :
    renderKubeconfig name region creds = .ok (yamlMarshal (kubeconfigOf name region creds))
      ∧ (∃ user, (kubeconfigOf name region creds).Users = [user]
        ∧ user.User.Token = creds.Token
        ∧ user.User.toYaml.text? "token" = some creds.Token
        ∧ (∀ key, creds.ClientKeyData = some key →
            user.User.ClientKeyData = EncodeToString key)
        ∧ (∀ cert, creds.ClientCertificateData = some cert →
            user.User.ClientCertificateData = EncodeToString cert)
        ∧ (∀ key, creds.ClientKeyData = some key → key ≠ [] →
            user.User.toYaml.text? "client-key-data" = some (EncodeToString key))
        ∧ (∀ cert, creds.ClientCertificateData = some cert → cert ≠ [] →
            user.User.toYaml.text? "client-certificate-data" = some (EncodeToString cert))
        ∧ (creds.ClientKeyData = none → user.User.toYaml.get? "client-key-data" = none)
        ∧ (creds.ClientCertificateData = none →
            user.User.toYaml.get? "client-certificate-data" = none))
      ∧ ((kubeconfigOf name region creds).plainScalars = true →
          renderKubeconfig name region creds = .ok (String.join (List.map (· ++ "\n")
            (["apiVersion: v1",
              "kind: Config",
              "clusters:",
              "- cluster:",
              "    certificate-authority-data: "
                ++ EncodeToString creds.CertificateAuthorityData,
              "    server: " ++ creds.Server,
              "  name: " ++ ("do-" ++ region ++ "-" ++ name),
              "contexts:",
              "- context:",
              "    cluster: " ++ ("do-" ++ region ++ "-" ++ name),
              "    user: " ++ ("do-" ++ region ++ "-" ++ name ++ "-admin"),
              "  name: " ++ ("do-" ++ region ++ "-" ++ name),
              "current-context: " ++ ("do-" ++ region ++ "-" ++ name),
              "users:",
              "- name: " ++ ("do-" ++ region ++ "-" ++ name ++ "-admin"),
              "  user:"]
            ++ (match creds.ClientKeyData with
                | none => []
                | some key =>
                  if key = [] then [] else ["    client-key-data: " ++ EncodeToString key])
            ++ (match creds.ClientCertificateData with
                | none => []
                | some cert =>
                  if cert = [] then []
                  else ["    client-certificate-data: " ++ EncodeToString cert])
            ++ ["    token: " ++ creds.Token])))) := by
  refine ⟨rfl, ⟨_, rfl, ?_, ?_, ?_, ?_, ?_, ?_, ?_, ?_⟩, ?_⟩
  · cases creds.ClientKeyData <;> cases creds.ClientCertificateData <;> rfl
  · rw [lookup_userData_token]
    cases creds.ClientKeyData <;> cases creds.ClientCertificateData <;> rfl
  · intro key hkey
    rw [hkey]
    cases creds.ClientCertificateData <;> rfl
  · intro cert hcert
    rw [hcert]
  · intro key hkey hne
    have hfield : ∀ u : kubernetesConfigUserData, u.ClientKeyData = EncodeToString key →
        u.toYaml.text? "client-key-data" = some (EncodeToString key) := by
      intro u hu
      unfold YamlNode.text?
      rw [lookup_userData_key, hu, if_neg (base64Encode_ne_nil key hne)]
      rfl
    apply hfield
    rw [hkey]
    cases creds.ClientCertificateData <;> rfl
  · intro cert hcert hne
    have hfield : ∀ u : kubernetesConfigUserData, u.ClientCertificateData = EncodeToString cert →
        u.toYaml.text? "client-certificate-data" = some (EncodeToString cert) := by
      intro u hu
      unfold YamlNode.text?
      rw [lookup_userData_cert, hu, if_neg (base64Encode_ne_nil cert hne)]
      rfl
    apply hfield
    rw [hcert]
  · intro hkey
    rw [lookup_userData_key, hkey]
    cases creds.ClientCertificateData <;> rfl
  · intro hcert
    rw [lookup_userData_cert, hcert]
    cases creds.ClientKeyData <;> rfl
  · intro _
    obtain ⟨server, ca, cert, key, token, expires⟩ := creds
    unfold renderKubeconfig yamlMarshal
    congr 2
    rcases key with _ | (_ | ⟨k1, (_ | ⟨k2, (_ | ⟨k3, krest⟩)⟩)⟩) <;>
      rcases cert with _ | (_ | ⟨c1, (_ | ⟨c2, (_ | ⟨c3, crest⟩)⟩)⟩) <;> rfl

/-- C5 at credentials with the client key `abc` and no client certificate: the
text `renderKubeconfig` returns has the line `client-key-data: YWJj`, the
token line, and no `client-certificate-data` line. -/
theorem renderKubeconfig_user_witness :
    renderKubeconfig "test-cluster" "lon1" credsWithKey = .ok (
      "apiVersion: v1\n" ++
      "kind: Config\n" ++
      "clusters:\n" ++
      "- cluster:\n" ++
      "    certificate-authority-data: AQID\n" ++
      "    server: https://k8s.example.com\n" ++
      "  name: do-lon1-test-cluster\n" ++
      "contexts:\n" ++
      "- context:\n" ++
      "    cluster: do-lon1-test-cluster\n" ++
      "    user: do-lon1-test-cluster-admin\n" ++
      "  name: do-lon1-test-cluster\n" ++
      "current-context: do-lon1-test-cluster\n" ++
      "users:\n" ++
      "- name: do-lon1-test-cluster-admin\n" ++
      "  user:\n" ++
      "    client-key-data: YWJj\n" ++
      "    token: token\n") :=
  (renderKubeconfig_user "test-cluster" "lon1" credsWithKey).2.2 (by decide)

/-! ## Flattening credentials -/

/-- What `flattenCredentials` stores, for every credentials value: the CA
certificate base64-encoded, the token and the server unchanged, and a client
key or client certificate of ASCII bytes as the text of those bytes. -/
theorem flattenCredentials_fields (fmt : Time → String) (name region : String)
    (creds : KubernetesClusterCredentials) :
    ∃ raw, flattenCredentials fmt name region creds = [raw]
      ∧ raw.cluster_ca_certificate = some (EncodeToString creds.CertificateAuthorityData)
      ∧ raw.token = some creds.Token
      ∧ raw.host = some creds.Server
      ∧ (creds.ClientKeyData = none → raw.client_key = none)
      ∧ (creds.ClientCertificateData = none → raw.client_certificate = none)
      ∧ (∀ key, creds.ClientKeyData = some key → (∀ b ∈ key, b < 128) →
          raw.client_key = some (stringOfBytes key))
      ∧ (∀ cert, creds.ClientCertificateData = some cert → (∀ b ∈ cert, b < 128) →
          raw.client_certificate = some (stringOfBytes cert)) := by
  refine ⟨_, rfl, ?_, ?_, ?_, ?_, ?_, ?_, ?_⟩
  · cases creds.ClientKeyData <;> cases creds.ClientCertificateData <;> rfl
  · cases creds.ClientKeyData <;> cases creds.ClientCertificateData <;> rfl
  · cases creds.ClientKeyData <;> cases creds.ClientCertificateData <;> rfl
  · intro h
    rw [h]
    cases creds.ClientCertificateData <;> rfl
  · intro h
    rw [h]
    cases creds.ClientKeyData <;> rfl
  · intro key h _
    rw [h]
    cases creds.ClientCertificateData <;> rfl
  · intro cert h _
    rw [h]

/-- C6: at credentials whose client key is the bytes `abc`, the block built by
`flattenCredentials` holds `client_key` as `abc`, not as the base64 encoding
`YWJj` that `renderKubeconfig` writes for the same bytes; the CA certificate is
base64-encoded and the token is unchanged. -/
theorem flattenCredentials_client_key_not_encoded (fmt : Time → String) :
    (flattenCredentials fmt "test-cluster" "lon1" credsWithKey).map (·.client_key)
        = [some "abc"]
      ∧ EncodeToString [97, 98, 99] = "YWJj"
      ∧ (kubeconfigOf "test-cluster" "lon1" credsWithKey).Users.map (·.User.ClientKeyData)
        = ["YWJj"]
      ∧ (flattenCredentials fmt "test-cluster" "lon1" credsWithKey).map
          (·.cluster_ca_certificate) = [some "AQID"]
      ∧ (flattenCredentials fmt "test-cluster" "lon1" credsWithKey).map (·.token)
        = [some "token"] :=
  ⟨rfl, rfl, rfl, rfl, rfl⟩

/-! ## Credential freshness in the cluster read -/

theorem setDefaultNodePool_kube_config (env : Env) (cluster : KubernetesCluster)
    (d : ResourceData) : (setDefaultNodePool env cluster d).kube_config = d.kube_config := by
  unfold setDefaultNodePool
  have htags : ∀ (p : KubernetesNodePool) (tags : List String) (d : ResourceData),
      (tags.foldl (fun d t =>
        if t = env.digitaloceanKubernetesDefaultNodePoolTag then
          { d with node_pool := env.flattenNodePool p cluster.Tags }
        else d) d).kube_config = d.kube_config := by
    intro p tags
    induction tags with
    | nil => intro d; rfl
    | cons t ts ih =>
      intro d
      rw [List.foldl_cons, ih]
      split_ifs <;> rfl
  generalize cluster.NodePools = pools
  induction pools generalizing d with
  | nil => rfl
  | cons p ps ih => rw [List.foldl_cons, ih, htags]

/-- The expiry the read works with is the one cached in the state it is given:
the attributes written before the credentials block do not touch
`kube_config`. -/
theorem cachedExpiry_read (env : Env) (cluster : KubernetesCluster) (d : ResourceData) :
    cachedExpiry env (setDefaultNodePool env cluster (setClusterAttributes env cluster d))
      = cachedExpiry env d := by
  unfold cachedExpiry cachedExpiresAt
  rw [setDefaultNodePool_kube_config]
  rfl

theorem setKubeConfig_calls (env : Env) (cluster : KubernetesCluster) (d : ResourceData)
    (calls : List RemoteCall) (creds : Option KubernetesClusterCredentials) :
    (setKubeConfig env cluster d calls creds).calls = calls := by
  cases creds <;> rfl

/-- The remote calls of the read when the cached expiry is `expiresAt`: one
credentials fetch when it is zero or before now, none otherwise. -/
theorem read_calls (env : Env) (cluster : KubernetesCluster) (d : ResourceData)
    (expiresAt : Time) (h : cachedExpiry env d = .ok expiresAt) :
    (digitaloceanKubernetesClusterRead env cluster d).calls
      = if expiresAt = 0 ∨ expiresAt < env.now then [RemoteCall.GetCredentials cluster.ID]
        else [] := by
  unfold digitaloceanKubernetesClusterRead refreshCredentials
  rw [cachedExpiry_read, h]
  by_cases hstale : expiresAt = 0 ∨ expiresAt < env.now
  · simp only [if_pos hstale]
    split
    · split
      · rfl
      · exact setKubeConfig_calls _ _ _ _ _
    · exact setKubeConfig_calls _ _ _ _ _
  · simp only [if_neg hstale]

/-- The credentials block is left as it was when the read fetches nothing. -/
theorem read_keeps (env : Env) (cluster : KubernetesCluster) (d : ResourceData)
    (expiresAt : Time) (h : cachedExpiry env d = .ok expiresAt)
    (hfresh : ¬ (expiresAt = 0 ∨ expiresAt < env.now)) :
    (digitaloceanKubernetesClusterRead env cluster d).d.kube_config = d.kube_config
      ∧ (digitaloceanKubernetesClusterRead env cluster d).outcome = .ok := by
  unfold digitaloceanKubernetesClusterRead refreshCredentials
  rw [cachedExpiry_read, h]
  simp only
  rw [if_neg hfresh]
  exact ⟨setDefaultNodePool_kube_config env cluster _, rfl⟩

theorem cachedExpiry_absent (env : Env) (d : ResourceData) (expiresAt : Time)
    (h : cachedExpiry env d = .ok expiresAt)
    (habs : cachedExpiresAt d = none ∨ cachedExpiresAt d = some "") : expiresAt = 0 := by
  unfold cachedExpiry at h
  rcases habs with hn | he
  · rw [hn] at h
    exact (Except.ok.inj h).symm
  · rw [he] at h
    simp only [ne_eq, not_true_eq_false, if_false] at h
    exact (Except.ok.inj h).symm

/-- C7, as stated, fails: with a cached expiry that is non-zero and equal to
the current time the claim asks for exactly one fetch, and the read makes
none. -/
theorem read_fetch_iff_strictly_after_fails :
    ¬ (∀ (env : Env) (cluster : KubernetesCluster) (d : ResourceData) (expiresAt : Time),
        cachedExpiry env d = .ok expiresAt →
        (credentialFetches (digitaloceanKubernetesClusterRead env cluster d).calls = 0
          ↔ (expiresAt ≠ 0 ∧ env.now < expiresAt))) := by
  intro hclaim
  have h := hclaim (envAt 63694944000000000000 0) (clusterInState "running")
    (stateWith [cachedBlock "2019-06-01T00:00:00Z"]) 63694944000000000000 rfl
  have hzero : credentialFetches (digitaloceanKubernetesClusterRead
      (envAt 63694944000000000000 0) (clusterInState "running")
      (stateWith [cachedBlock "2019-06-01T00:00:00Z"])).calls = 0 := by
    rw [read_calls (envAt 63694944000000000000 0) (clusterInState "running")
      (stateWith [cachedBlock "2019-06-01T00:00:00Z"]) 63694944000000000000 rfl]
    decide
  exact absurd (h.mp hzero).2 (by decide)

/-- C7, amended: whenever the cached `expires_at` is absent, empty or parses,
the read keeps the cached credentials and makes no credentials fetch if and
only if the cached expiry is non-zero and not before the current time; in every
other case (expiry absent, empty, zero or strictly in the past) it makes exactly
one credentials fetch. -/
theorem read_fetch_iff_stale (env : Env) (cluster : KubernetesCluster) (d : ResourceData)
    (expiresAt : Time) (h : cachedExpiry env d = .ok expiresAt) :
    ((credentialFetches (digitaloceanKubernetesClusterRead env cluster d).calls = 0
        ∧ (digitaloceanKubernetesClusterRead env cluster d).d.kube_config = d.kube_config)
      ↔ (expiresAt ≠ 0 ∧ env.now ≤ expiresAt))
    ∧ (credentialFetches (digitaloceanKubernetesClusterRead env cluster d).calls = 0
      ↔ (expiresAt ≠ 0 ∧ env.now ≤ expiresAt))
    ∧ (¬ (expiresAt ≠ 0 ∧ env.now ≤ expiresAt) →
        credentialFetches (digitaloceanKubernetesClusterRead env cluster d).calls = 1)
    ∧ ((cachedExpiresAt d = none ∨ cachedExpiresAt d = some "") → expiresAt = 0) := by
  have hcalls := read_calls env cluster d expiresAt h
  by_cases hstale : expiresAt = 0 ∨ expiresAt < env.now
  · rw [if_pos hstale] at hcalls
    have hone : credentialFetches (digitaloceanKubernetesClusterRead env cluster d).calls = 1 := by
      rw [hcalls]; rfl
    have hnot : ¬ (expiresAt ≠ 0 ∧ env.now ≤ expiresAt) := by
      rintro ⟨hne, hle⟩
      rcases hstale with h0 | hlt
      · exact hne h0
      · exact absurd hlt (not_lt.mpr hle)
    refine ⟨⟨?_, fun hf => absurd hf hnot⟩, ⟨?_, fun hf => absurd hf hnot⟩, fun _ => hone,
      cachedExpiry_absent env d expiresAt h⟩
    · rintro ⟨h0, _⟩
      rw [hone] at h0
      exact absurd h0 (by decide)
    · intro h0
      rw [hone] at h0
      exact absurd h0 (by decide)
  · rw [if_neg hstale] at hcalls
    have hzero : credentialFetches (digitaloceanKubernetesClusterRead env cluster d).calls = 0 := by
      rw [hcalls]; rfl
    have hfresh : expiresAt ≠ 0 ∧ env.now ≤ expiresAt :=
      ⟨fun h0 => hstale (Or.inl h0), not_lt.mp (fun hlt => hstale (Or.inr hlt))⟩
    exact ⟨⟨fun _ => hfresh, fun _ => ⟨hzero, (read_keeps env cluster d expiresAt h hstale).1⟩⟩,
      ⟨fun _ => hfresh, fun _ => hzero⟩, fun hn => absurd hfresh hn,
      cachedExpiry_absent env d expiresAt h⟩

/-- C7, amended, one second before the cached expiry: no fetch. -/
theorem read_fetch_iff_stale_witness :
    cachedExpiry (envAt 63694943999000000000 0) (stateWith [cachedBlock "2019-06-01T00:00:00Z"])
        = .ok 63694944000000000000
      ∧ credentialFetches (digitaloceanKubernetesClusterRead (envAt 63694943999000000000 0)
          (clusterInState "running") (stateWith [cachedBlock "2019-06-01T00:00:00Z"])).calls = 0 :=
  ⟨rfl,
    (read_fetch_iff_stale (envAt 63694943999000000000 0) (clusterInState "running")
      (stateWith [cachedBlock "2019-06-01T00:00:00Z"]) 63694944000000000000 rfl).2.1.mpr
      (by decide)⟩

/-! ## Waiting for a cluster to run -/

/-- One iteration on a poll that is not yet running, below the bound: the loop
goes on with both counters advanced. -/
theorem waitLoop_step (get : Nat → Except String KubernetesCluster) (timeout n polls : Nat)
    (hpoll : notYetRunning (get polls)) (hn : n ≤ timeout) :
    waitLoop get timeout n polls = waitLoop get timeout (n + 1) (polls + 1) := by
  obtain ⟨cluster, hget, hstate⟩ := hpoll
  rw [waitLoop, hget]
  simp only
  rw [if_neg hstate, if_neg (Nat.not_lt.mpr hn)]

/-- After `j` polls that are not yet running, the loop stands `j` iterations
further. -/
theorem waitLoop_skip (get : Nat → Except String KubernetesCluster) (timeout : Nat) :
    ∀ (j n polls : Nat), n + j ≤ timeout + 1 →
      (∀ i, i < j → notYetRunning (get (polls + i))) →
      waitLoop get timeout n polls = waitLoop get timeout (n + j) (polls + j) := by
  intro j
  induction j with
  | zero => intro n polls _ _; rfl
  | succ j ih =>
    intro n polls hbound hpolls
    rw [waitLoop_step get timeout n polls (hpolls 0 (Nat.succ_pos j)) (by omega),
      ih (n + 1) (polls + 1) (by omega)
        (fun i hi => by
          have h := hpolls (i + 1) (by omega)
          rwa [show polls + (i + 1) = polls + 1 + i by omega] at h)]
    rw [show n + 1 + j = n + (j + 1) by omega, show polls + 1 + j = polls + (j + 1) by omega]

theorem waitLoop_running (get : Nat → Except String KubernetesCluster) (timeout n polls : Nat)
    (cluster : KubernetesCluster) (hget : get polls = .ok cluster)
    (hstate : cluster.State = "running") :
    waitLoop get timeout n polls = ⟨some cluster, none, polls + 1⟩ := by
  rw [waitLoop, hget]
  simp only
  rw [if_pos hstate]

theorem waitLoop_error (get : Nat → Except String KubernetesCluster) (timeout n polls : Nat)
    (err : String) (hget : get polls = .error err) :
    waitLoop get timeout n polls
      = ⟨none, some ("Error trying to read cluster state: " ++ err), polls + 1⟩ := by
  rw [waitLoop, hget]

theorem waitLoop_timeout (get : Nat → Except String KubernetesCluster) (timeout n polls : Nat)
    (hpoll : notYetRunning (get polls)) (hn : n > timeout) :
    waitLoop get timeout n polls
      = ⟨none, some "Timeout waiting to create cluster", polls + 1⟩ := by
  obtain ⟨cluster, hget, hstate⟩ := hpoll
  rw [waitLoop, hget]
  simp only
  rw [if_neg hstate, if_pos hn]

/-- The wait when every poll succeeds with a state other than `running`: the
timeout error, after 122 polls. -/
theorem wait_all_pending (env : Env) (id : String)
    (hpolls : ∀ i, notYetRunning (env.Get id i)) :
    waitForKubernetesClusterCreate env id
      = ⟨none, some "Timeout waiting to create cluster", 122⟩ := by
  unfold waitForKubernetesClusterCreate
  rw [waitLoop_skip (env.Get id) 120 121 0 0 (by omega) (fun i _ => hpolls (0 + i))]
  exact waitLoop_timeout (env.Get id) 120 121 121 (hpolls 121) (by omega)

theorem readError_ne_timeout (err : String) :
    "Error trying to read cluster state: " ++ err ≠ "Timeout waiting to create cluster" := by
  intro h
  have hhead := congrArg (fun s : String => s.data.head?) h
  simp only [String.data_append] at hhead
  have hE : (some 'E' : Option Char) = some 'T' := hhead
  exact absurd hE (by decide)

/-- C8: when the first `k - 1` polls succeed with a state other than `running`
and poll `k` succeeds with state `running`, for `1 ≤ k ≤ 120`, the wait returns
the cluster of poll `k` and no error, after exactly `k` polls. The reply to
poll `i + 1` is `env.Get id i`. -/
theorem wait_returns_running_cluster (env : Env) (id : String) (k : Nat)
    (cluster : KubernetesCluster) (hk1 : 1 ≤ k) (hk120 : k ≤ 120)
    (hearlier : ∀ i, i + 1 < k → notYetRunning (env.Get id i))
    (hget : env.Get id (k - 1) = .ok cluster) (hstate : cluster.State = "running") :
    waitForKubernetesClusterCreate env id = ⟨some cluster, none, k⟩ := by
  unfold waitForKubernetesClusterCreate
  rw [waitLoop_skip (env.Get id) 120 (k - 1) 0 0 (by omega)
    (fun i hi => by rw [Nat.zero_add]; exact hearlier i (by omega))]
  rw [Nat.zero_add] at *
  rw [waitLoop_running (env.Get id) 120 (k - 1) (k - 1) cluster hget hstate]
  rw [show k - 1 + 1 = k by omega]

/-- C8 at `k = 3`: two polls in state `provisioning`, then one in state
`running`. -/
theorem wait_returns_running_cluster_witness :
    waitForKubernetesClusterCreate (envAt 0 2) "c1"
      = ⟨some (clusterInState "running"), none, 3⟩ :=
  wait_returns_running_cluster (envAt 0 2) "c1" 3 (clusterInState "running")
    (by decide) (by decide)
    (fun i hi => ⟨clusterInState "provisioning",
      by
        have hlt : i < 2 := by omega
        show (if i < 2 then _ else _) = _
        rw [if_pos hlt],
      by decide⟩)
    rfl rfl

/-- C9: when every poll answers `provisioning`, the wait makes 122 polls, not
120, before it returns the timeout error and no cluster. -/
theorem wait_timeout_after_122_polls :
    waitForKubernetesClusterCreate envPending "c1"
      = ⟨none, some "Timeout waiting to create cluster", 122⟩ :=
  wait_all_pending envPending "c1" (fun _ => ⟨clusterInState "provisioning", rfl, by decide⟩)

/-- C10: when poll `k` is made and returns an error, the earlier polls having
succeeded with a state other than `running`, the wait returns at once, after
exactly `k` polls, with no cluster and the read-state error, which is not the
timeout error. The loop makes at most 122 polls, so there is a poll `k` only
for `k ≤ 122`. The reply to poll `i + 1` is `env.Get id i`. -/
theorem wait_returns_poll_error (env : Env) (id : String) (k : Nat) (err : String)
    (hk1 : 1 ≤ k) (hk122 : k ≤ 122)
    (hearlier : ∀ i, i + 1 < k → notYetRunning (env.Get id i))
    (hget : env.Get id (k - 1) = .error err) :
    waitForKubernetesClusterCreate env id
        = ⟨none, some ("Error trying to read cluster state: " ++ err), k⟩
      ∧ (waitForKubernetesClusterCreate env id).err
          ≠ some "Timeout waiting to create cluster" := by
  have hres : waitForKubernetesClusterCreate env id
      = ⟨none, some ("Error trying to read cluster state: " ++ err), k⟩ := by
    unfold waitForKubernetesClusterCreate
    rw [waitLoop_skip (env.Get id) 120 (k - 1) 0 0 (by omega)
      (fun i hi => by rw [Nat.zero_add]; exact hearlier i (by omega))]
    rw [Nat.zero_add] at *
    rw [waitLoop_error (env.Get id) 120 (k - 1) (k - 1) err hget]
    rw [show k - 1 + 1 = k by omega]
  refine ⟨hres, ?_⟩
  rw [hres]
  intro h
  exact readError_ne_timeout err (Option.some.inj h)

/-- C10 at `k = 122`: 121 polls in state `provisioning`, then a failing
one. -/
theorem wait_returns_poll_error_witness :
    waitForKubernetesClusterCreate (envFailing 121) "c1"
        = ⟨none, some "Error trying to read cluster state: 503 unavailable", 122⟩
      ∧ (waitForKubernetesClusterCreate (envFailing 121) "c1").err
          ≠ some "Timeout waiting to create cluster" :=
  wait_returns_poll_error (envFailing 121) "c1" 122 "503 unavailable"
    (by decide) (by decide)
    (fun i hi => ⟨clusterInState "provisioning",
      by
        have hlt : i < 121 := by omega
        show (if i < 121 then _ else _) = _
        rw [if_pos hlt],
      by decide⟩)
    rfl

/-! ## The calls of a read -/

theorem refreshCredentials_calls_cases (env : Env) (cluster : KubernetesCluster)
    (d : ResourceData) :
    (refreshCredentials env cluster d).calls = []
      ∨ (refreshCredentials env cluster d).calls = [.GetCredentials cluster.ID] := by
  unfold refreshCredentials
  split
  · exact Or.inl rfl
  · split
    · right
      dsimp only
      split
      · split
        · rfl
        · exact setKubeConfig_calls _ _ _ _ _
      · exact setKubeConfig_calls _ _ _ _ _
    · exact Or.inl rfl

/-- The remote calls of `resourceDigitalOceanKubernetesClusterRead`: one `Get`,
then at most one credentials fetch. -/
theorem resourceRead_calls_cases (env : Env) (gets : Nat) (d : ResourceData) :
    (resourceDigitalOceanKubernetesClusterRead env gets d).calls = [.Get d.id]
      ∨ ∃ clusterID, (resourceDigitalOceanKubernetesClusterRead env gets d).calls
          = [.Get d.id, .GetCredentials clusterID] := by
  unfold resourceDigitalOceanKubernetesClusterRead
  split
  · split
    · exact Or.inl rfl
    · exact Or.inl rfl
  · rename_i cluster _
    rcases refreshCredentials_calls_cases env cluster
      (setDefaultNodePool env cluster (setClusterAttributes env cluster d)) with h | h
    · left
      show RemoteCall.Get d.id :: (digitaloceanKubernetesClusterRead env cluster d).calls = _
      unfold digitaloceanKubernetesClusterRead
      rw [h]
    · right
      refine ⟨cluster.ID, ?_⟩
      show RemoteCall.Get d.id :: (digitaloceanKubernetesClusterRead env cluster d).calls = _
      unfold digitaloceanKubernetesClusterRead
      rw [h]

/-! ## Updating a cluster -/

/-- C11, as stated, fails: an update with no declared change of name, tags or
node pool still makes remote calls, those of the read it ends with. -/
theorem update_no_change_zero_calls_fails :
    ¬ (∀ (env : Env) (chg : Changes) (d : ResourceData),
        chg.name = false → chg.tags = false → chg.node_pool = false →
        (resourceDigitalOceanKubernetesClusterUpdate env chg d).calls = []) := by
  intro hclaim
  have h := hclaim (envAt 0 0) noChange (stateWith []) rfl rfl rfl
  have hcalls : (resourceDigitalOceanKubernetesClusterUpdate (envAt 0 0) noChange
      (stateWith [])).calls = [.Get "c1", .GetCredentials "c1"] := by
    rfl
  rw [hcalls] at h
  exact absurd h (by decide)

/-- C11, amended: with no declared change of name, tags or node pool the update
is the read of the resource; it makes no `Update` and no `UpdateNodePool` call,
and its remote calls are one `Get`, then at most one credentials fetch. -/
theorem update_no_change_only_reads (env : Env) (chg : Changes) (d : ResourceData)
    (hname : chg.name = false) (htags : chg.tags = false) (hpool : chg.node_pool = false) :
    resourceDigitalOceanKubernetesClusterUpdate env chg d
        = resourceDigitalOceanKubernetesClusterRead env 0 d
      ∧ (∀ id, RemoteCall.Update id ∉ (resourceDigitalOceanKubernetesClusterUpdate env chg d).calls)
      ∧ (∀ id poolID, RemoteCall.UpdateNodePool id poolID
          ∉ (resourceDigitalOceanKubernetesClusterUpdate env chg d).calls)
      ∧ ((resourceDigitalOceanKubernetesClusterUpdate env chg d).calls = [.Get d.id]
        ∨ ∃ clusterID, (resourceDigitalOceanKubernetesClusterUpdate env chg d).calls
            = [.Get d.id, .GetCredentials clusterID]) := by
  have heq : resourceDigitalOceanKubernetesClusterUpdate env chg d
      = resourceDigitalOceanKubernetesClusterRead env 0 d := by
    unfold resourceDigitalOceanKubernetesClusterUpdate updateDefaultNodePool
    rw [hname, htags, hpool]
    rfl
  rw [heq]
  refine ⟨rfl, ?_, ?_, resourceRead_calls_cases env 0 d⟩
  · intro id hmem
    rcases resourceRead_calls_cases env 0 d with h | ⟨c, h⟩ <;> rw [h] at hmem <;>
      simp at hmem
  · intro id poolID hmem
    rcases resourceRead_calls_cases env 0 d with h | ⟨c, h⟩ <;> rw [h] at hmem <;>
      simp at hmem

/-- C11, amended, at a state with nothing cached: the update makes one `Get`
and one credentials fetch. -/
theorem update_no_change_only_reads_witness :
    resourceDigitalOceanKubernetesClusterUpdate (envAt 0 0) noChange (stateWith [])
        = resourceDigitalOceanKubernetesClusterRead (envAt 0 0) 0 (stateWith [])
      ∧ (∀ id, RemoteCall.Update id
          ∉ (resourceDigitalOceanKubernetesClusterUpdate (envAt 0 0) noChange (stateWith [])).calls) :=
  ⟨(update_no_change_only_reads (envAt 0 0) noChange (stateWith []) rfl rfl rfl).1,
    (update_no_change_only_reads (envAt 0 0) noChange (stateWith []) rfl rfl rfl).2.1⟩

/-- C12: when the name or the tags changed and the `Update` call fails with a
404 reply, the update clears the ID of the resource, returns `nil`, and makes
no other remote call. -/
theorem update_not_found_clears_id (env : Env) (chg : Changes) (d : ResourceData)
    (err : String) (hchg : chg.name = true ∨ chg.tags = true)
    (herr : (env.Update d.id d.name d.tags).err = some err)
    (hresp : (env.Update d.id d.name d.tags).resp = some ⟨404⟩) :
    resourceDigitalOceanKubernetesClusterUpdate env chg d
        = ⟨{ d with id := "" }, [.Update d.id], .ok⟩
      ∧ (resourceDigitalOceanKubernetesClusterUpdate env chg d).d.id = ""
      ∧ (resourceDigitalOceanKubernetesClusterUpdate env chg d).outcome = .ok
      ∧ (resourceDigitalOceanKubernetesClusterUpdate env chg d).calls = [.Update d.id] := by
  have hcond : (chg.name || chg.tags) = true := by
    rcases hchg with h | h <;> simp [h]
  have heq : resourceDigitalOceanKubernetesClusterUpdate env chg d
      = ⟨{ d with id := "" }, [.Update d.id], .ok⟩ := by
    unfold resourceDigitalOceanKubernetesClusterUpdate
    rw [if_pos hcond]
    simp only [herr, hresp]
    rfl
  rw [heq]
  exact ⟨rfl, rfl, rfl, rfl⟩

/-- C12 at a renamed cluster that is gone. -/
theorem update_not_found_clears_id_witness :
    resourceDigitalOceanKubernetesClusterUpdate envUpdateNotFound nameChange (stateWith [])
      = ⟨{ stateWith [] with id := "" }, [.Update "c1"], .ok⟩ :=
  (update_not_found_clears_id envUpdateNotFound nameChange (stateWith []) "404 Not Found"
    (Or.inl rfl) rfl rfl).1

/-! ## Deleting a cluster -/

/-- C13: the delete makes one `Delete` call; it returns `nil` with the ID
cleared when the call succeeds and when it fails with a 404 reply; it returns
an error, with the resource data as it was, when the call fails otherwise, and
only then. -/
theorem delete_idempotent_on_not_found (env : Env) (d : ResourceData) :
    (resourceDigitalOceanKubernetesClusterDelete env d).calls = [.Delete d.id]
      ∧ ((env.Delete d.id).err = none →
          (resourceDigitalOceanKubernetesClusterDelete env d).outcome = .ok
          ∧ (resourceDigitalOceanKubernetesClusterDelete env d).d.id = "")
      ∧ (∀ err, (env.Delete d.id).err = some err → notFound (env.Delete d.id).resp = true →
          (resourceDigitalOceanKubernetesClusterDelete env d).outcome = .ok
          ∧ (resourceDigitalOceanKubernetesClusterDelete env d).d.id = "")
      ∧ (∀ err, (env.Delete d.id).err = some err → notFound (env.Delete d.id).resp = false →
          (resourceDigitalOceanKubernetesClusterDelete env d).outcome
              = .error ("Unable to delete cluster: " ++ err)
          ∧ (resourceDigitalOceanKubernetesClusterDelete env d).d = d)
      ∧ ((∃ msg, (resourceDigitalOceanKubernetesClusterDelete env d).outcome = .error msg)
          ↔ ((env.Delete d.id).err ≠ none ∧ notFound (env.Delete d.id).resp = false)) := by
  unfold resourceDigitalOceanKubernetesClusterDelete
  dsimp only
  cases herr : (env.Delete d.id).err with
  | none =>
    refine ⟨rfl, fun _ => ⟨rfl, rfl⟩, ?_, ?_, ?_⟩
    · intro err h; exact absurd h (by simp)
    · intro err h; exact absurd h (by simp)
    · constructor
      · rintro ⟨msg, h⟩; exact absurd h (by simp)
      · rintro ⟨h, _⟩; exact absurd rfl h
  | some e =>
    cases hnf : notFound (env.Delete d.id).resp with
    | true =>
      refine ⟨rfl, fun h => absurd h (by simp), fun _ _ _ => ⟨rfl, rfl⟩, ?_, ?_⟩
      · intro err _ h; exact absurd h (by simp)
      · constructor
        · rintro ⟨msg, h⟩; exact absurd h (by simp)
        · rintro ⟨_, h⟩; exact absurd h (by simp)
    | false =>
      refine ⟨rfl, fun h => absurd h (by simp), ?_, ?_, ?_⟩
      · intro err _ h; exact absurd h (by simp)
      · intro err h _
        rw [Option.some.inj h]
        exact ⟨rfl, rfl⟩
      · exact ⟨fun _ => ⟨by simp, rfl⟩, fun _ => ⟨_, rfl⟩⟩

/-- C13 at a delete answered 404 and at a delete answered 500. -/
theorem delete_idempotent_on_not_found_witness :
    ((resourceDigitalOceanKubernetesClusterDelete
          (envDelete ⟨some ⟨404⟩, some "404 Not Found"⟩) (stateWith [])).outcome = .ok
        ∧ (resourceDigitalOceanKubernetesClusterDelete
          (envDelete ⟨some ⟨404⟩, some "404 Not Found"⟩) (stateWith [])).d.id = "")
      ∧ ((resourceDigitalOceanKubernetesClusterDelete
          (envDelete ⟨some ⟨500⟩, some "500 Server Error"⟩) (stateWith [])).outcome
            = .error "Unable to delete cluster: 500 Server Error"
        ∧ (resourceDigitalOceanKubernetesClusterDelete
          (envDelete ⟨some ⟨500⟩, some "500 Server Error"⟩) (stateWith [])).d = stateWith []) :=
  ⟨(delete_idempotent_on_not_found (envDelete ⟨some ⟨404⟩, some "404 Not Found"⟩)
      (stateWith [])).2.2.1 "404 Not Found" rfl rfl,
    (delete_idempotent_on_not_found (envDelete ⟨some ⟨500⟩, some "500 Server Error"⟩)
      (stateWith [])).2.2.2.1 "500 Server Error" rfl rfl⟩

/-! ## Errors of the credentials part of the read -/

/-- C14: with nothing cached and a credentials fetch that fails with a 500
reply and no credentials, the read does not return an error: it goes on to
flatten the nil credentials and panics; the same fetch failing with a 404
reply does return an error. Neither writes a credentials block. -/
theorem read_fetch_error_not_returned :
    (digitaloceanKubernetesClusterRead
        (envCredentials ⟨none, some ⟨500⟩, some "500 Server Error"⟩)
        (clusterInState "running") (stateWith [])).outcome = .panic
      ∧ (digitaloceanKubernetesClusterRead
        (envCredentials ⟨none, none, some "connection refused"⟩)
        (clusterInState "running") (stateWith [])).outcome = .panic
      ∧ (digitaloceanKubernetesClusterRead
        (envCredentials ⟨none, some ⟨404⟩, some "404 Not Found"⟩)
        (clusterInState "running") (stateWith [])).outcome
          = .error "Unable to fetch Kubernetes credentials: 404 Not Found"
      ∧ (digitaloceanKubernetesClusterRead
        (envCredentials ⟨none, some ⟨500⟩, some "500 Server Error"⟩)
        (clusterInState "running") (stateWith [])).calls = [.GetCredentials "c1"]
      ∧ (digitaloceanKubernetesClusterRead
        (envCredentials ⟨none, some ⟨500⟩, some "500 Server Error"⟩)
        (clusterInState "running") (stateWith [])).d.kube_config = [] := by
  decide

/-- C15: when the cached credentials carry a non-empty `expires_at` that does
not parse, the read returns the parse error, makes no remote call, and leaves
the cached credentials block as it was. -/
theorem read_malformed_expiry (env : Env) (cluster : KubernetesCluster) (d : ResourceData)
    (s err : String) (hcached : cachedExpiresAt d = some s) (hne : s ≠ "")
    (hparse : env.parseRFC3339 s = .error err) :
    (digitaloceanKubernetesClusterRead env cluster d).outcome
        = .error ("Unable to parse Kubernetes credentials expiry: " ++ err)
      ∧ (digitaloceanKubernetesClusterRead env cluster d).calls = []
      ∧ credentialFetches (digitaloceanKubernetesClusterRead env cluster d).calls = 0
      ∧ (digitaloceanKubernetesClusterRead env cluster d).d.kube_config = d.kube_config := by
  have hexp : cachedExpiry env d = .error err := by
    unfold cachedExpiry
    rw [hcached]
    simp only [ne_eq, hne, not_false_eq_true, if_true]
    exact hparse
  have heq : digitaloceanKubernetesClusterRead env cluster d
      = ⟨setDefaultNodePool env cluster (setClusterAttributes env cluster d), [],
          .error ("Unable to parse Kubernetes credentials expiry: " ++ err)⟩ := by
    unfold digitaloceanKubernetesClusterRead refreshCredentials
    rw [cachedExpiry_read, hexp]
  rw [heq]
  exact ⟨rfl, rfl, rfl, setDefaultNodePool_kube_config env cluster _⟩

/-- C15 at a cached `expires_at` of `yesterday`. -/
theorem read_malformed_expiry_witness :
    (digitaloceanKubernetesClusterRead (envAt 0 0) (clusterInState "running")
        (stateWith [cachedBlock "yesterday"])).outcome
        = .error "Unable to parse Kubernetes credentials expiry: cannot parse"
      ∧ (digitaloceanKubernetesClusterRead (envAt 0 0) (clusterInState "running")
        (stateWith [cachedBlock "yesterday"])).calls = [] :=
  ⟨(read_malformed_expiry (envAt 0 0) (clusterInState "running")
      (stateWith [cachedBlock "yesterday"]) "yesterday" "cannot parse" rfl (by decide) rfl).1,
    (read_malformed_expiry (envAt 0 0) (clusterInState "running")
      (stateWith [cachedBlock "yesterday"]) "yesterday" "cannot parse" rfl (by decide) rfl).2.1⟩

/-! ## The default node pool in the read -/

/-- The loop over the tags of a pool without the marker tag changes nothing. -/
theorem setPool_no_marker (env : Env) (cluster : KubernetesCluster) (p : KubernetesNodePool)
    (tags : List String) (d : ResourceData)
    (h : env.digitaloceanKubernetesDefaultNodePoolTag ∉ tags) :
    tags.foldl (fun d t =>
      if t = env.digitaloceanKubernetesDefaultNodePoolTag then
        { d with node_pool := env.flattenNodePool p cluster.Tags }
      else d) d = d := by
  induction tags generalizing d with
  | nil => rfl
  | cons t ts ih =>
    have ht : t ≠ env.digitaloceanKubernetesDefaultNodePoolTag :=
      fun heq => h (heq ▸ List.mem_cons_self _ _)
    rw [List.foldl_cons, if_neg ht]
    exact ih d (fun hmem => h (List.mem_cons_of_mem _ hmem))

/-- The loop over the tags of a pool with the marker tag writes that pool. -/
theorem setPool_marker (env : Env) (cluster : KubernetesCluster) (p : KubernetesNodePool)
    (tags : List String) (d : ResourceData)
    (h : env.digitaloceanKubernetesDefaultNodePoolTag ∈ tags) :
    (tags.foldl (fun d t =>
      if t = env.digitaloceanKubernetesDefaultNodePoolTag then
        { d with node_pool := env.flattenNodePool p cluster.Tags }
      else d) d).node_pool = env.flattenNodePool p cluster.Tags := by
  induction tags generalizing d with
  | nil => exact absurd h (List.not_mem_nil _)
  | cons t ts ih =>
    rw [List.foldl_cons]
    by_cases hts : env.digitaloceanKubernetesDefaultNodePoolTag ∈ ts
    · exact ih _ hts
    · have ht : t = env.digitaloceanKubernetesDefaultNodePoolTag := by
        rcases List.mem_cons.mp h with h1 | h1
        · exact h1.symm
        · exact absurd h1 hts
      rw [setPool_no_marker env cluster p ts _ hts, if_pos ht]

/-- The loop over pools of which none carries the marker tag changes nothing. -/
theorem setDefaultNodePool_no_marker (env : Env) (cluster : KubernetesCluster)
    (d : ResourceData)
    (h : ∀ p ∈ cluster.NodePools, env.digitaloceanKubernetesDefaultNodePoolTag ∉ p.Tags) :
    setDefaultNodePool env cluster d = d := by
  unfold setDefaultNodePool
  revert h
  generalize cluster.NodePools = pools
  intro h
  induction pools generalizing d with
  | nil => rfl
  | cons p ps ih =>
    rw [List.foldl_cons, setPool_no_marker env cluster p p.Tags d (h p (List.mem_cons_self _ _))]
    exact ih d (fun q hq => h q (List.mem_cons_of_mem _ hq))

/-- The loop over pools of which one carries the marker tag writes a pool that
carries it. -/
theorem setDefaultNodePool_marker (env : Env) (cluster : KubernetesCluster)
    (d : ResourceData)
    (h : ∃ p ∈ cluster.NodePools, env.digitaloceanKubernetesDefaultNodePoolTag ∈ p.Tags) :
    ∃ p ∈ cluster.NodePools, env.digitaloceanKubernetesDefaultNodePoolTag ∈ p.Tags
      ∧ (setDefaultNodePool env cluster d).node_pool = env.flattenNodePool p cluster.Tags := by
  unfold setDefaultNodePool
  revert h
  generalize cluster.NodePools = pools
  intro h
  induction pools generalizing d with
  | nil =>
    obtain ⟨p, hp, _⟩ := h
    exact absurd hp (List.not_mem_nil _)
  | cons p ps ih =>
    rw [List.foldl_cons]
    by_cases hps : ∃ q ∈ ps, env.digitaloceanKubernetesDefaultNodePoolTag ∈ q.Tags
    · obtain ⟨q, hq, hmark, hnp⟩ := ih _ hps
      exact ⟨q, List.mem_cons_of_mem _ hq, hmark, hnp⟩
    · have hnone : ∀ q ∈ ps, env.digitaloceanKubernetesDefaultNodePoolTag ∉ q.Tags :=
        fun q hq hmark => hps ⟨q, hq, hmark⟩
      have hp : env.digitaloceanKubernetesDefaultNodePoolTag ∈ p.Tags := by
        obtain ⟨q, hq, hmark⟩ := h
        rcases List.mem_cons.mp hq with h1 | h1
        · exact h1 ▸ hmark
        · exact absurd hmark (hnone q h1)
      refine ⟨p, List.mem_cons_self _ _, hp, ?_⟩
      have hrest := setDefaultNodePool_no_marker env { cluster with NodePools := ps }
        (p.Tags.foldl (fun d t =>
          if t = env.digitaloceanKubernetesDefaultNodePoolTag then
            { d with node_pool := env.flattenNodePool p cluster.Tags }
          else d) d) hnone
      unfold setDefaultNodePool at hrest
      rw [hrest]
      exact setPool_marker env cluster p p.Tags d hp

theorem setKubeConfig_node_pool (env : Env) (cluster : KubernetesCluster) (d : ResourceData)
    (calls : List RemoteCall) (creds : Option KubernetesClusterCredentials) :
    (setKubeConfig env cluster d calls creds).d.node_pool = d.node_pool := by
  cases creds <;> rfl

/-- The credentials part of the read leaves `node_pool` as it finds it. -/
theorem refreshCredentials_node_pool (env : Env) (cluster : KubernetesCluster)
    (d : ResourceData) : (refreshCredentials env cluster d).d.node_pool = d.node_pool := by
  unfold refreshCredentials
  split
  · rfl
  · split
    · dsimp only
      split
      · split
        · rfl
        · exact setKubeConfig_node_pool _ _ _ _ _
      · exact setKubeConfig_node_pool _ _ _ _ _
    · rfl

/-- C16: when no node pool of the observed cluster carries the marker tag, the
read leaves `node_pool` as it was and, in state, remote calls and outcome, is
the read of the same cluster without node pools, so the missing pool gives no
error; when a pool carries the marker tag, the `node_pool` the read leaves is
the flattening of a pool of the cluster that carries the tag. -/
theorem read_default_node_pool (env : Env) (cluster : KubernetesCluster) (d : ResourceData) :
    ((∀ p ∈ cluster.NodePools, env.digitaloceanKubernetesDefaultNodePoolTag ∉ p.Tags) →
        (digitaloceanKubernetesClusterRead env cluster d).d.node_pool = d.node_pool
        ∧ digitaloceanKubernetesClusterRead env cluster d
          = digitaloceanKubernetesClusterRead env { cluster with NodePools := [] } d)
      ∧ ((∃ p ∈ cluster.NodePools, env.digitaloceanKubernetesDefaultNodePoolTag ∈ p.Tags) →
        ∃ p ∈ cluster.NodePools, env.digitaloceanKubernetesDefaultNodePoolTag ∈ p.Tags
          ∧ (digitaloceanKubernetesClusterRead env cluster d).d.node_pool
            = env.flattenNodePool p cluster.Tags) := by
  constructor
  · intro h
    constructor
    · unfold digitaloceanKubernetesClusterRead
      rw [refreshCredentials_node_pool, setDefaultNodePool_no_marker env cluster _ h]
      rfl
    · unfold digitaloceanKubernetesClusterRead
      rw [setDefaultNodePool_no_marker env cluster _ h]
      rfl
  · intro h
    obtain ⟨p, hp, hmark, hnp⟩ :=
      setDefaultNodePool_marker env cluster (setClusterAttributes env cluster d) h
    refine ⟨p, hp, hmark, ?_⟩
    unfold digitaloceanKubernetesClusterRead
    rw [refreshCredentials_node_pool, hnp]

/-- C16 at a cluster with an untagged pool, where `node_pool` is kept, and at a
cluster whose second pool carries the marker tag. -/
theorem read_default_node_pool_witness :
    (digitaloceanKubernetesClusterRead (envAt 0 0)
        (clusterWithPools [poolWith "p1" ["web"]]) (stateWith [])).d.node_pool
        = (stateWith []).node_pool
      ∧ (∃ p ∈ (clusterWithPools [poolWith "p1" ["web"],
              poolWith "p2" ["terraform:default-node-pool"]]).NodePools,
          (envAt 0 0).digitaloceanKubernetesDefaultNodePoolTag ∈ p.Tags
          ∧ (digitaloceanKubernetesClusterRead (envAt 0 0)
              (clusterWithPools [poolWith "p1" ["web"],
                poolWith "p2" ["terraform:default-node-pool"]]) (stateWith [])).d.node_pool
            = (envAt 0 0).flattenNodePool p
              (clusterWithPools [poolWith "p1" ["web"],
                poolWith "p2" ["terraform:default-node-pool"]]).Tags) :=
  ⟨((read_default_node_pool (envAt 0 0) (clusterWithPools [poolWith "p1" ["web"]])
      (stateWith [])).1 (by decide)).1,
    (read_default_node_pool (envAt 0 0)
      (clusterWithPools [poolWith "p1" ["web"], poolWith "p2" ["terraform:default-node-pool"]])
      (stateWith [])).2 ⟨poolWith "p2" ["terraform:default-node-pool"], by decide, by decide⟩⟩

end DigitalOcean
